import Mathlib

/-!
Verification of the compound-interest calculation engine (`src/lib.rs` of the
`cical` repository) against its natural-language specification.

The Rust `f64` values are modelled as real numbers; `f64::powf` is modelled as
`Real.rpow` (and as `Monoid.npow` where the Rust code raises to an exponent
obtained by casting an integer week count, for which `powf` agrees with the
integer power).  The `f64 as u32` saturating cast is modelled by
`f64_as_u32`.  The `HashMap<u32, _>` built by `generate_breakdown` is modelled
as an association list with distinct keys, queried through `List.lookup`.
-/

/-- Input record, from `struct CompoundInterestParams` in `src/lib.rs`. -/
structure CompoundInterestParams where
  principal : ℝ
  annual_rate : ℝ
  compounds_per_year : ℕ
  years : ℝ

/-- Output record, from `struct CompoundInterestResult` in `src/lib.rs`. -/
structure CompoundInterestResult where
  final_amount : ℝ
  total_interest : ℝ
  principal : ℝ
  effective_annual_rate : ℝ

/-- Embeds `calculate_compound_interest` from `src/lib.rs`. -/
noncomputable def calculate_compound_interest (params : CompoundInterestParams) :
    CompoundInterestResult :=
  let principal := params.principal
  let rate := params.annual_rate
  let compounds : ℝ := params.compounds_per_year
  let years := params.years
  let final_amount := principal * (1 + rate / compounds) ^ (compounds * years)
  let total_interest := final_amount - principal
  let effective_annual_rate := (1 + rate / compounds) ^ compounds - 1
  { final_amount := final_amount
    total_interest := total_interest
    principal := principal
    effective_annual_rate := effective_annual_rate }

/-- Embeds `calculate_compound_interest_with_contributions` from `src/lib.rs`. -/
noncomputable def calculate_compound_interest_with_contributions
    (params : CompoundInterestParams) (monthly_contribution : ℝ) :
    CompoundInterestResult :=
  let principal := params.principal
  let rate := params.annual_rate
  let compounds : ℝ := params.compounds_per_year
  let years := params.years
  let monthly_rate := rate / 12
  let total_months := years * 12
  let principal_future_value := principal * (1 + rate / compounds) ^ (compounds * years)
  let contribution_future_value :=
    if 0 < monthly_rate then
      monthly_contribution * ((1 + monthly_rate) ^ total_months - 1) / monthly_rate
    else
      monthly_contribution * total_months
  let final_amount := principal_future_value + contribution_future_value
  let total_interest := final_amount - principal - monthly_contribution * total_months
  let effective_annual_rate := (1 + rate / compounds) ^ compounds - 1
  { final_amount := final_amount
    total_interest := total_interest
    principal := principal
    effective_annual_rate := effective_annual_rate }

/-- Embeds `calculate_time_to_target` from `src/lib.rs`. -/
noncomputable def calculate_time_to_target (principal target_amount annual_rate : ℝ)
    (compounds_per_year : ℕ) : ℝ :=
  let rate := annual_rate
  let compounds : ℝ := compounds_per_year
  if rate ≤ 0 ∨ principal ≤ 0 ∨ target_amount ≤ principal then 0
  else Real.log (target_amount / principal) / (compounds * Real.log (1 + rate / compounds))

/-- Embeds `calculate_principal_for_target` from `src/lib.rs`. -/
noncomputable def calculate_principal_for_target (target_amount annual_rate : ℝ)
    (compounds_per_year : ℕ) (years : ℝ) : ℝ :=
  let rate := annual_rate
  let compounds : ℝ := compounds_per_year
  if rate ≤ 0 ∨ years ≤ 0 then 0
  else target_amount / (1 + rate / compounds) ^ (compounds * years)

/-- The Rust `f64 as u32` cast: truncation toward zero, saturating at `0` and
at `u32::MAX = 2^32 - 1`. -/
noncomputable def f64_as_u32 (x : ℝ) : ℕ :=
  min (max ⌊x⌋ 0).toNat (2 ^ 32 - 1)

/-- Embeds `generate_breakdown` from `src/lib.rs`: the loop
`for year in 1..=(params.years as u32)` inserts one entry per year into a map
with distinct keys, modelled as an association list. -/
noncomputable def generate_breakdown (params : CompoundInterestParams) :
    List (ℕ × CompoundInterestResult) :=
  (List.range' 1 (f64_as_u32 params.years)).map fun year =>
    (year, calculate_compound_interest { params with years := (year : ℝ) })

/-- The three mutable accumulators of `calculate_weekly_with_yearly_tax`. -/
structure TaxState where
  current_principal : ℝ
  total_tax_paid : ℝ
  total_contributions : ℝ

/-- Gross year-end value computed inside the full-year loop of
`calculate_weekly_with_yearly_tax` (lines 175-186 of `src/lib.rs`): note that
the annuity factor is applied to `year_contributions = weekly_contribution * 52`,
exactly as the source does. -/
noncomputable def yearGross (weekly_rate weekly_contribution B : ℝ) : ℝ :=
  let year_contributions := weekly_contribution * 52
  B * (1 + weekly_rate) ^ (52 : ℕ) +
    (if 0 < weekly_rate then
      year_contributions * ((1 + weekly_rate) ^ (52 : ℕ) - 1) / weekly_rate
    else year_contributions)

/-- `year_profit` of one full-year segment (line 189 of `src/lib.rs`). -/
noncomputable def yearProfit (weekly_rate weekly_contribution B : ℝ) : ℝ :=
  yearGross weekly_rate weekly_contribution B - B - weekly_contribution * 52

/-- `year_tax` of one full-year segment (line 190 of `src/lib.rs`). -/
noncomputable def yearTax (weekly_rate weekly_contribution capital_gains_tax B : ℝ) : ℝ :=
  if 0 < yearProfit weekly_rate weekly_contribution B then
    yearProfit weekly_rate weekly_contribution B * capital_gains_tax
  else 0

/-- One iteration of the `for year in 0..years` loop of
`calculate_weekly_with_yearly_tax`. -/
noncomputable def taxYearStep (weekly_rate weekly_contribution capital_gains_tax : ℝ)
    (s : TaxState) : TaxState :=
  { current_principal :=
      yearGross weekly_rate weekly_contribution s.current_principal -
        yearTax weekly_rate weekly_contribution capital_gains_tax s.current_principal
    total_tax_paid :=
      s.total_tax_paid +
        yearTax weekly_rate weekly_contribution capital_gains_tax s.current_principal
    total_contributions := s.total_contributions + weekly_contribution * 52 }

/-- `final_total` of the trailing-weeks block (lines 199-208 of `src/lib.rs`);
as in the full-year loop, the annuity factor is applied to
`remaining_contributions = weekly_contribution * remaining_weeks`. -/
noncomputable def remGross (weekly_rate weekly_contribution : ℝ) (remaining_weeks : ℕ)
    (B : ℝ) : ℝ :=
  let remaining_contributions := weekly_contribution * remaining_weeks
  B * (1 + weekly_rate) ^ remaining_weeks +
    (if 0 < weekly_rate then
      remaining_contributions * ((1 + weekly_rate) ^ remaining_weeks - 1) / weekly_rate
    else remaining_contributions)

/-- `remaining_profit` of the trailing-weeks block (line 211 of `src/lib.rs`). -/
noncomputable def remProfit (weekly_rate weekly_contribution : ℝ) (remaining_weeks : ℕ)
    (B : ℝ) : ℝ :=
  remGross weekly_rate weekly_contribution remaining_weeks B - B -
    weekly_contribution * remaining_weeks

/-- `remaining_tax` of the trailing-weeks block (lines 212-216 of `src/lib.rs`):
pro-rated by `remaining_weeks / 52`. -/
noncomputable def remTax (weekly_rate weekly_contribution capital_gains_tax : ℝ)
    (remaining_weeks : ℕ) (B : ℝ) : ℝ :=
  if 0 < remProfit weekly_rate weekly_contribution remaining_weeks B then
    remProfit weekly_rate weekly_contribution remaining_weeks B * capital_gains_tax *
      ((remaining_weeks : ℝ) / 52)
  else 0

/-- The whole trailing-weeks block (lines 198-220 of `src/lib.rs`). -/
noncomputable def remStep (weekly_rate weekly_contribution capital_gains_tax : ℝ)
    (remaining_weeks : ℕ) (s : TaxState) : TaxState :=
  { current_principal :=
      remGross weekly_rate weekly_contribution remaining_weeks s.current_principal -
        remTax weekly_rate weekly_contribution capital_gains_tax remaining_weeks
          s.current_principal
    total_tax_paid :=
      s.total_tax_paid +
        remTax weekly_rate weekly_contribution capital_gains_tax remaining_weeks
          s.current_principal
    total_contributions :=
      s.total_contributions + weekly_contribution * remaining_weeks }

/-- Embeds `calculate_weekly_with_yearly_tax` from `src/lib.rs`: `years = weeks / 52`
full-year iterations, then the trailing block when `weeks % 52 > 0`, returning
`(final after tax, total profit before tax, total tax paid)`. -/
noncomputable def calculate_weekly_with_yearly_tax (principal weekly_rate : ℝ)
    (weeks : ℕ) (weekly_contribution capital_gains_tax : ℝ) : ℝ × ℝ × ℝ :=
  let years := weeks / 52
  let remaining_weeks := weeks % 52
  let s0 : TaxState :=
    { current_principal := principal, total_tax_paid := 0, total_contributions := 0 }
  let s1 := (taxYearStep weekly_rate weekly_contribution capital_gains_tax)^[years] s0
  let s2 :=
    if 0 < remaining_weeks then
      remStep weekly_rate weekly_contribution capital_gains_tax remaining_weeks s1
    else s1
  (s2.current_principal,
   s2.current_principal + s2.total_tax_paid - principal - s2.total_contributions,
   s2.total_tax_paid)

/-- The unsegmented pure-compounding value named by the specification for the
tax-free case: the principal compounded weekly over `W` weeks plus the
`W`-period annuity future value of the weekly contribution `C` (spec sections
4.2 and 4.6, testable property 6).  This definition follows the specification
text, for comparison with `calculate_weekly_with_yearly_tax`. -/
noncomputable def spec_pure_weekly (P weekly_rate C : ℝ) (W : ℕ) : ℝ :=
  P * (1 + weekly_rate) ^ W +
    (if 0 < weekly_rate then C * ((1 + weekly_rate) ^ W - 1) / weekly_rate
     else C * W)

/-- Claim C2: `calculate_compound_interest` returns
`final_amount = P * (1 + r/n) ^ (n*t)`, `total_interest = final_amount - P`,
the principal echoed, and `effective_annual_rate = (1 + r/n)^n - 1`; at
`P = 1000`, `r = 0.05`, `n = 1`, `t = 10` the final amount is within `0.01`
of `1628.89` and the total interest within `0.01` of `628.89`. -/
theorem C2_growth_formula (p : CompoundInterestParams) :
    (calculate_compound_interest p).final_amount =
      p.principal * (1 + p.annual_rate / p.compounds_per_year) ^
        ((p.compounds_per_year : ℝ) * p.years) ∧
    (calculate_compound_interest p).total_interest =
      (calculate_compound_interest p).final_amount - p.principal ∧
    (calculate_compound_interest p).principal = p.principal ∧
    (calculate_compound_interest p).effective_annual_rate =
      (1 + p.annual_rate / p.compounds_per_year) ^ p.compounds_per_year - 1 ∧
    |(calculate_compound_interest ⟨1000, 0.05, 1, 10⟩).final_amount - 1628.89| < 0.01 ∧
    |(calculate_compound_interest ⟨1000, 0.05, 1, 10⟩).total_interest - 628.89| < 0.01 := by
  refine ⟨rfl, rfl, rfl, ?_, ?_, ?_⟩
  · simp [calculate_compound_interest, Real.rpow_natCast]
  · simp only [calculate_compound_interest, Nat.cast_one, div_one, one_mul]
    rw [show ((10:ℝ)) = ((10:ℕ):ℝ) by norm_num, Real.rpow_natCast, abs_lt]
    constructor <;> norm_num
  · simp only [calculate_compound_interest, Nat.cast_one, div_one, one_mul]
    rw [show ((10:ℝ)) = ((10:ℕ):ℝ) by norm_num, Real.rpow_natCast, abs_lt]
    constructor <;> norm_num

/-- Claim C3: `calculate_compound_interest_with_contributions` adds to the
principal's future value the monthly-cadence annuity future value
(`rho = r/12`, `m = 12*t`, with the flat sum `C * (12*t)` when the monthly
rate is not positive), subtracts `P + C*(12*t)` for the total interest, and
inherits the effective annual rate of `calculate_compound_interest`. -/
theorem C3_contribution_projection (p : CompoundInterestParams) (C : ℝ) :
    (calculate_compound_interest_with_contributions p C).final_amount =
      p.principal * (1 + p.annual_rate / p.compounds_per_year) ^
        ((p.compounds_per_year : ℝ) * p.years) +
      (if 0 < p.annual_rate / 12 then
        C * ((1 + p.annual_rate / 12) ^ ((12:ℝ) * p.years) - 1) / (p.annual_rate / 12)
      else C * (12 * p.years)) ∧
    (calculate_compound_interest_with_contributions p C).total_interest =
      (calculate_compound_interest_with_contributions p C).final_amount -
        p.principal - C * (12 * p.years) ∧
    (calculate_compound_interest_with_contributions p C).effective_annual_rate =
      (calculate_compound_interest p).effective_annual_rate := by
  refine ⟨?_, ?_, ?_⟩ <;>
    simp [calculate_compound_interest_with_contributions, calculate_compound_interest,
      mul_comm]

/-- Claim C1: `calculate_weekly_with_yearly_tax` partitions the week count into
`W / 52` full 52-week segments plus a trailing segment of `W % 52` weeks:
`W = 0` returns exactly `(P, 0, 0)`; `W = 52` runs exactly one full segment and
no trailing segment; the trailing segment's tax equals
`max 0 profit * tax_rate * (R/52)` (only the tax rate is pro-rated); and
`W = 53` runs one full segment followed by a 1-week trailing segment. -/
theorem C1_weekly_segmentation (P rho C tau : ℝ) :
    calculate_weekly_with_yearly_tax P rho 0 C tau = (P, 0, 0) ∧
    calculate_weekly_with_yearly_tax P rho 52 C tau =
      ((taxYearStep rho C tau ⟨P, 0, 0⟩).current_principal,
       (taxYearStep rho C tau ⟨P, 0, 0⟩).current_principal +
         (taxYearStep rho C tau ⟨P, 0, 0⟩).total_tax_paid - P -
         (taxYearStep rho C tau ⟨P, 0, 0⟩).total_contributions,
       (taxYearStep rho C tau ⟨P, 0, 0⟩).total_tax_paid) ∧
    (∀ (R : ℕ) (B : ℝ),
      remTax rho C tau R B = max 0 (remProfit rho C R B) * tau * ((R : ℝ) / 52)) ∧
    calculate_weekly_with_yearly_tax P rho 53 C tau =
      ((remStep rho C tau 1 (taxYearStep rho C tau ⟨P, 0, 0⟩)).current_principal,
       (remStep rho C tau 1 (taxYearStep rho C tau ⟨P, 0, 0⟩)).current_principal +
         (remStep rho C tau 1 (taxYearStep rho C tau ⟨P, 0, 0⟩)).total_tax_paid - P -
         (remStep rho C tau 1 (taxYearStep rho C tau ⟨P, 0, 0⟩)).total_contributions,
       (remStep rho C tau 1 (taxYearStep rho C tau ⟨P, 0, 0⟩)).total_tax_paid) := by
  refine ⟨?_, ?_, ?_, ?_⟩
  · simp [calculate_weekly_with_yearly_tax]
  · simp [calculate_weekly_with_yearly_tax]
  · intro R B
    rw [remTax]
    by_cases h : 0 < remProfit rho C R B
    · rw [if_pos h, max_eq_right h.le]
    · rw [if_neg h, max_eq_left (not_lt.mp h), zero_mul, zero_mul]
  · simp [calculate_weekly_with_yearly_tax]

/-- Claim C5: at `tau = 0` the function pays no tax (which holds), but its
after-tax final balance does not match the unsegmented pure-compounding value
claimed by the specification: at `P = 0`, `rho = 1`, `W = 52`, `C = 1`,
`tau = 0` the code yields `52 * (2^52 - 1)` (the year's annuity factor is
applied to the year's total contributions `C * 52` instead of the weekly
contribution `C`), while the specified value is `2^52 - 1`. -/
theorem C5_code_divergence :
    (calculate_weekly_with_yearly_tax 0 1 52 1 0).2.2 = 0 ∧
    (calculate_weekly_with_yearly_tax 0 1 52 1 0).1 = 52 * ((2:ℝ) ^ (52:ℕ) - 1) ∧
    spec_pure_weekly 0 1 1 52 = (2:ℝ) ^ (52:ℕ) - 1 ∧
    (52:ℝ) * ((2:ℝ) ^ (52:ℕ) - 1) ≠ (2:ℝ) ^ (52:ℕ) - 1 := by
  refine ⟨?_, ?_, ?_, ?_⟩
  · simp [calculate_weekly_with_yearly_tax, taxYearStep, yearTax, yearProfit, yearGross]
  · simp [calculate_weekly_with_yearly_tax, taxYearStep, yearTax, yearProfit, yearGross]
    norm_num
  · norm_num [spec_pure_weekly]
  · norm_num

/-- Claim C4, counterexample: `calculate_principal_for_target` returns `0` at
target `T = 0` with rate `1`, frequency `1`, and duration `1` even though
neither `r <= 0` nor `t <= 0` holds, so "returns 0 exactly when r <= 0 or
t <= 0" is false as stated. -/
theorem C4_counterexample :
    calculate_principal_for_target 0 1 1 1 = 0 ∧ ¬((1:ℝ) ≤ 0 ∨ (1:ℝ) ≤ 0) := by
  constructor
  · rw [calculate_principal_for_target]
    norm_num
  · norm_num

/-- Claim C4, amended: with frequency `n >= 1`, `calculate_time_to_target`
returns `0` exactly when `r <= 0` or `P <= 0` or `T <= P` and otherwise returns
`ln(T/P) / (n * ln(1 + r/n))`; `calculate_principal_for_target` returns `0`
exactly when `r <= 0` or `t <= 0` or the target `T` itself is `0`, and
whenever `r > 0` and `t > 0` it returns `T / (1 + r/n)^(n*t)`.  Neither
function signals an error for any input. -/
theorem C4_sentinel_amended (P T r t : ℝ) (n : ℕ) (hn : 1 ≤ n) :
    (calculate_time_to_target P T r n = 0 ↔ (r ≤ 0 ∨ P ≤ 0 ∨ T ≤ P)) ∧
    (¬(r ≤ 0 ∨ P ≤ 0 ∨ T ≤ P) →
      calculate_time_to_target P T r n =
        Real.log (T / P) / ((n : ℝ) * Real.log (1 + r / n))) ∧
    (calculate_principal_for_target T r n t = 0 ↔ (r ≤ 0 ∨ t ≤ 0 ∨ T = 0)) ∧
    (¬(r ≤ 0 ∨ t ≤ 0) →
      calculate_principal_for_target T r n t = T / (1 + r / n) ^ ((n : ℝ) * t)) := by
  have hn' : (0:ℝ) < n := by exact_mod_cast Nat.lt_of_lt_of_le Nat.zero_lt_one hn
  refine ⟨?_, ?_, ?_, ?_⟩
  · by_cases hc : r ≤ 0 ∨ P ≤ 0 ∨ T ≤ P
    · rw [calculate_time_to_target, if_pos hc]
      simp [hc]
    · rw [calculate_time_to_target, if_neg hc]
      push_neg at hc
      obtain ⟨hr, hP, hT⟩ := hc
      have h1 : 0 < Real.log (T / P) := Real.log_pos ((one_lt_div hP).mpr hT)
      have h2 : 0 < Real.log (1 + r / n) := by
        apply Real.log_pos
        have : 0 < r / n := div_pos hr hn'
        linarith
      have h3 : 0 < Real.log (T / P) / ((n : ℝ) * Real.log (1 + r / n)) :=
        div_pos h1 (mul_pos hn' h2)
      simp only [h3.ne', false_iff]
      push_neg
      exact ⟨hr, hP, hT⟩
  · intro hc
    rw [calculate_time_to_target, if_neg hc]
  · by_cases hc : r ≤ 0 ∨ t ≤ 0
    · rw [calculate_principal_for_target, if_pos hc]
      simp only [true_iff]
      tauto
    · rw [calculate_principal_for_target, if_neg hc]
      push_neg at hc
      obtain ⟨hr, ht⟩ := hc
      have hbase : (0:ℝ) < 1 + r / n := by
        have : 0 < r / n := div_pos hr hn'
        linarith
      have hD : 0 < (1 + r / n) ^ ((n : ℝ) * t) := Real.rpow_pos_of_pos hbase _
      rw [div_eq_zero_iff]
      constructor
      · rintro (h | h)
        · exact Or.inr (Or.inr h)
        · exact absurd h hD.ne'
      · rintro (h | h | h)
        · exact absurd h (not_le.mpr hr)
        · exact absurd h (not_le.mpr ht)
        · exact Or.inl h
  · intro hc
    rw [calculate_principal_for_target, if_neg hc]

/-- Witness for `C4_sentinel_amended` at `P = 1`, `T = 2`, `r = 1`, `t = 1`,
`n = 1`. -/
theorem C4_sentinel_witness :
    1 ≤ 1 ∧
    ((calculate_time_to_target 1 2 1 1 = 0 ↔ ((1:ℝ) ≤ 0 ∨ (1:ℝ) ≤ 0 ∨ (2:ℝ) ≤ 1)) ∧
     (¬((1:ℝ) ≤ 0 ∨ (1:ℝ) ≤ 0 ∨ (2:ℝ) ≤ 1) →
       calculate_time_to_target 1 2 1 1 =
         Real.log (2 / 1) / (((1:ℕ) : ℝ) * Real.log (1 + 1 / ((1:ℕ) : ℝ)))) ∧
     (calculate_principal_for_target 2 1 1 1 = 0 ↔
       ((1:ℝ) ≤ 0 ∨ (1:ℝ) ≤ 0 ∨ (2:ℝ) = 0)) ∧
     (¬((1:ℝ) ≤ 0 ∨ (1:ℝ) ≤ 0) →
       calculate_principal_for_target 2 1 1 1 =
         2 / (1 + 1 / ((1:ℕ) : ℝ)) ^ (((1:ℕ) : ℝ) * 1))) :=
  ⟨le_refl 1, C4_sentinel_amended 1 2 1 1 1 (le_refl 1)⟩

/-- Looking a key up in an association list whose entries pair each element of
a list with a function of it. -/
theorem lookup_map_pair {α : Type} (f : ℕ → α) (k : ℕ) :
    ∀ l : List ℕ,
      List.lookup k (l.map fun y => (y, f y)) = if k ∈ l then some (f k) else none := by
  intro l
  induction l with
  | nil => simp
  | cons a l ih =>
    by_cases h : k = a
    · subst h
      simp [List.lookup]
    · have hba : (k == a) = false := by simp [h]
      simp only [List.map_cons, List.lookup, hba, ih, List.mem_cons, h, false_or]

/-- Closed form of a lookup in the breakdown table built by
`generate_breakdown`. -/
theorem lookup_generate_breakdown (p : CompoundInterestParams) (k : ℕ) :
    List.lookup k (generate_breakdown p) =
      if 1 ≤ k ∧ k ≤ f64_as_u32 p.years then
        some (calculate_compound_interest { p with years := (k : ℝ) })
      else none := by
  rw [generate_breakdown, lookup_map_pair]
  have hmem : k ∈ List.range' 1 (f64_as_u32 p.years) ↔
      1 ≤ k ∧ k ≤ f64_as_u32 p.years := by
    rw [List.mem_range'_1]
    omega
  rw [if_congr hmem rfl rfl]

/-- Claim C6, counterexample: at `years = 2^32` the `f64 as u32` cast saturates
at `2^32 - 1`, so the breakdown has no entry for year `2^32` even though
`1 ≤ 2^32 ≤ ⌊years⌋`, contradicting "key set is exactly the dense range
1..floor(N)". -/
theorem C6_counterexample :
    List.lookup 4294967296 (generate_breakdown ⟨1, 1, 1, (4294967296:ℝ)⟩) = none ∧
    (1:ℤ) ≤ 4294967296 ∧ (4294967296:ℤ) ≤ ⌊(4294967296:ℝ)⌋ := by
  refine ⟨?_, by norm_num, ?_⟩
  · rw [lookup_generate_breakdown]
    have hcast : f64_as_u32 (4294967296:ℝ) = 4294967295 := by
      have hfl : ⌊(4294967296:ℝ)⌋ = 4294967296 := by
        rw [show ((4294967296:ℝ)) = ((4294967296:ℤ) : ℝ) by norm_num, Int.floor_intCast]
      rw [f64_as_u32, hfl]
      rfl
    rw [hcast]
    norm_num
  · rw [show ((4294967296:ℝ)) = ((4294967296:ℤ) : ℝ) by norm_num, Int.floor_intCast]

/-- Claim C6, amended: for every parameter record with `years < 2^32` (below
the saturation point of the `f64 as u32` cast), the breakdown maps exactly the
keys `1..⌊years⌋`, and the entry at key `k` is bit-for-bit
`calculate_compound_interest` of the same parameters with `years := k`. -/
theorem C6_breakdown_amended (p : CompoundInterestParams) (k : ℕ)
    (h : p.years < 2 ^ 32) :
    List.lookup k (generate_breakdown p) =
      if 1 ≤ k ∧ (k : ℤ) ≤ ⌊p.years⌋ then
        some (calculate_compound_interest { p with years := (k : ℝ) })
      else none := by
  rw [lookup_generate_breakdown]
  have hfl : ⌊p.years⌋ < 2 ^ 32 := by
    rw [Int.floor_lt]
    exact h.trans_le (by norm_num)
  have hcond : (1 ≤ k ∧ k ≤ f64_as_u32 p.years) ↔ (1 ≤ k ∧ (k : ℤ) ≤ ⌊p.years⌋) := by
    rw [f64_as_u32]
    omega
  rw [if_congr hcond rfl rfl]

/-- Witness for `C6_breakdown_amended` at `years = 5/2` and key `2`. -/
theorem C6_breakdown_witness :
    (5/2 : ℝ) < 2 ^ 32 ∧
    List.lookup 2 (generate_breakdown ⟨1, 1/20, 1, (5/2 : ℝ)⟩) =
      (if 1 ≤ 2 ∧ (2 : ℤ) ≤ ⌊(5/2 : ℝ)⌋ then
        some (calculate_compound_interest ⟨1, 1/20, 1, ((2:ℕ) : ℝ)⟩)
      else none) :=
  ⟨by norm_num, C6_breakdown_amended ⟨1, 1/20, 1, (5/2 : ℝ)⟩ 2 (by norm_num)⟩

/-- Claim C10: whenever the `years` field is below `1` (zero, fractional, or
negative, the cast saturating at `0`), `generate_breakdown` returns the empty
map. -/
theorem C10_breakdown_empty (p : CompoundInterestParams) (h : p.years < 1) :
    generate_breakdown p = [] := by
  have hfl : ⌊p.years⌋ < 1 := by
    rw [Int.floor_lt]
    exact h.trans_le (by norm_num)
  have hcast : f64_as_u32 p.years = 0 := by
    rw [f64_as_u32]
    omega
  rw [generate_breakdown, hcast]
  rfl

/-- Witness for `C10_breakdown_empty` at `years = -5/2`. -/
theorem C10_breakdown_empty_witness :
    (-5/2 : ℝ) < 1 ∧ generate_breakdown ⟨1000, 1/20, 12, (-5/2 : ℝ)⟩ = [] :=
  ⟨by norm_num, C10_breakdown_empty ⟨1000, 1/20, 12, (-5/2 : ℝ)⟩ (by norm_num)⟩

/-- Claim C7: feeding `calculate_principal_for_target T r n t` (with `r > 0`,
`t > 0`, `n >= 1`) as the principal into `calculate_compound_interest` with the
same rate, frequency and duration returns exactly the target `T`, hence in
particular within the claimed `0.01` relative tolerance. -/
theorem C7_round_trip (T r t : ℝ) (n : ℕ) (hr : 0 < r) (ht : 0 < t) (hn : 1 ≤ n) :
    (calculate_compound_interest
        ⟨calculate_principal_for_target T r n t, r, n, t⟩).final_amount = T ∧
    |(calculate_compound_interest
        ⟨calculate_principal_for_target T r n t, r, n, t⟩).final_amount - T| ≤
      0.01 * |T| := by
  have hn' : (0:ℝ) < n := by exact_mod_cast Nat.lt_of_lt_of_le Nat.zero_lt_one hn
  have hbase : (0:ℝ) < 1 + r / n := by
    have : 0 < r / n := div_pos hr hn'
    linarith
  have hD : (0:ℝ) < (1 + r / n) ^ ((n : ℝ) * t) := Real.rpow_pos_of_pos hbase _
  have hmain : (calculate_compound_interest
      ⟨calculate_principal_for_target T r n t, r, n, t⟩).final_amount = T := by
    show calculate_principal_for_target T r n t * (1 + r / (n:ℝ)) ^ ((n:ℝ) * t) = T
    rw [calculate_principal_for_target, if_neg (by push_neg; exact ⟨hr, ht⟩)]
    exact div_mul_cancel₀ T hD.ne'
  refine ⟨hmain, ?_⟩
  rw [hmain, sub_self, abs_zero]
  positivity

/-- Witness for `C7_round_trip` at `T = 2000`, `r = 1/20`, `n = 1`, `t = 10`. -/
theorem C7_round_trip_witness :
    (0:ℝ) < 1/20 ∧ (0:ℝ) < 10 ∧ 1 ≤ 1 ∧
    ((calculate_compound_interest
        ⟨calculate_principal_for_target 2000 (1/20) 1 10, 1/20, 1, 10⟩).final_amount =
      2000 ∧
     |(calculate_compound_interest
        ⟨calculate_principal_for_target 2000 (1/20) 1 10, 1/20, 1, 10⟩).final_amount -
        2000| ≤ 0.01 * |(2000:ℝ)|) :=
  ⟨by norm_num, by norm_num, le_refl 1,
   C7_round_trip 2000 (1/20) 10 1 (by norm_num) (by norm_num) (le_refl 1)⟩

/-- For a positive rate `r`, the compounding base `(1 + r/m)^m` strictly
increases in the compounding frequency `m` (via the strict Bernoulli
inequality for real exponents). -/
theorem base_pow_lt_base_pow {r : ℝ} (hr : 0 < r) {m n : ℕ} (hm : 1 ≤ m)
    (hmn : m < n) : (1 + r / m) ^ m < (1 + r / n) ^ n := by
  have hm' : (0:ℝ) < m := by exact_mod_cast Nat.lt_of_lt_of_le Nat.zero_lt_one hm
  have hn' : (0:ℝ) < n := by
    exact_mod_cast Nat.lt_of_lt_of_le Nat.zero_lt_one (hm.trans hmn.le)
  have hs : 0 < r / n := div_pos hr hn'
  have hp : 1 < (n : ℝ) / m := (one_lt_div hm').mpr (by exact_mod_cast hmn)
  have hb := one_add_mul_self_lt_rpow_one_add (by linarith : (-1:ℝ) ≤ r / n) hs.ne' hp
  have hmul : ((n : ℝ) / m) * (r / n) = r / m := by
    field_simp
    ring
  have key : (1:ℝ) + r / m < (1 + r / n) ^ ((n : ℝ) / m) := by
    rwa [hmul] at hb
  have h0m : (0:ℝ) ≤ 1 + r / m := by
    have : 0 < r / m := div_pos hr hm'
    linarith
  have h2 : (1 + r / m) ^ m < ((1 + r / n) ^ ((n : ℝ) / m)) ^ m :=
    pow_lt_pow_left₀ key h0m (by omega)
  have h3 : ((1 + r / n) ^ ((n : ℝ) / m)) ^ m = (1 + r / n) ^ n := by
    have hb0 : (0:ℝ) ≤ 1 + r / n := by linarith
    rw [← Real.rpow_natCast ((1 + r / n) ^ ((n : ℝ) / m)) m, ← Real.rpow_mul hb0,
      div_mul_cancel₀ _ hm'.ne', Real.rpow_natCast]
  rw [h3] at h2
  exact h2

/-- Claim C8, counterexample: at rate `r = 0` (which the claim does not
exclude), raising the compounding frequency from `1` to `12` leaves both the
final amount and the effective annual rate unchanged, so the increase is not
strict. -/
theorem C8_counterexample :
    ¬((calculate_compound_interest ⟨1, 0, 1, 1⟩).final_amount <
      (calculate_compound_interest ⟨1, 0, 12, 1⟩).final_amount) ∧
    ¬((calculate_compound_interest ⟨1, 0, 1, 1⟩).effective_annual_rate <
      (calculate_compound_interest ⟨1, 0, 12, 1⟩).effective_annual_rate) := by
  constructor <;> simp [calculate_compound_interest]

/-- Claim C8, amended: for positive principal, positive rate and positive
duration, increasing the compounding frequency (any `1 <= m < n`, in
particular 1 to 12 to 365) strictly increases both the final amount and the
effective annual rate returned by `calculate_compound_interest`. -/
theorem C8_monotone_amended (P r t : ℝ) (m n : ℕ) (hP : 0 < P) (hr : 0 < r)
    (ht : 0 < t) (hm : 1 ≤ m) (hmn : m < n) :
    (calculate_compound_interest ⟨P, r, m, t⟩).final_amount <
      (calculate_compound_interest ⟨P, r, n, t⟩).final_amount ∧
    (calculate_compound_interest ⟨P, r, m, t⟩).effective_annual_rate <
      (calculate_compound_interest ⟨P, r, n, t⟩).effective_annual_rate := by
  have hm' : (0:ℝ) < m := by exact_mod_cast Nat.lt_of_lt_of_le Nat.zero_lt_one hm
  have hn' : (0:ℝ) < n := by
    exact_mod_cast Nat.lt_of_lt_of_le Nat.zero_lt_one (hm.trans hmn.le)
  have h0m : (0:ℝ) < 1 + r / m := by
    have : 0 < r / m := div_pos hr hm'
    linarith
  have h0n : (0:ℝ) < 1 + r / n := by
    have : 0 < r / n := div_pos hr hn'
    linarith
  have hlt := base_pow_lt_base_pow hr hm hmn
  constructor
  · show P * (1 + r / (m:ℝ)) ^ ((m:ℝ) * t) < P * (1 + r / (n:ℝ)) ^ ((n:ℝ) * t)
    have em : (1 + r / (m:ℝ)) ^ ((m:ℝ) * t) = ((1 + r / m) ^ m : ℝ) ^ t := by
      rw [Real.rpow_mul h0m.le, Real.rpow_natCast]
    have en : (1 + r / (n:ℝ)) ^ ((n:ℝ) * t) = ((1 + r / n) ^ n : ℝ) ^ t := by
      rw [Real.rpow_mul h0n.le, Real.rpow_natCast]
    rw [em, en]
    exact mul_lt_mul_of_pos_left
      (Real.rpow_lt_rpow (pow_nonneg h0m.le m) hlt ht) hP
  · show (1 + r / (m:ℝ)) ^ ((m:ℝ)) - 1 < (1 + r / (n:ℝ)) ^ ((n:ℝ)) - 1
    rw [Real.rpow_natCast, Real.rpow_natCast]
    exact sub_lt_sub_right hlt 1

/-- Witness for `C8_monotone_amended` at `P = 1`, `r = 1`, `t = 1`, `m = 1`,
`n = 12`. -/
theorem C8_monotone_witness :
    (0:ℝ) < 1 ∧ (0:ℝ) < 1 ∧ (0:ℝ) < 1 ∧ 1 ≤ 1 ∧ 1 < 12 ∧
    ((calculate_compound_interest ⟨1, 1, 1, 1⟩).final_amount <
      (calculate_compound_interest ⟨1, 1, 12, 1⟩).final_amount ∧
     (calculate_compound_interest ⟨1, 1, 1, 1⟩).effective_annual_rate <
      (calculate_compound_interest ⟨1, 1, 12, 1⟩).effective_annual_rate) :=
  ⟨one_pos, one_pos, one_pos, le_refl 1, by norm_num,
   C8_monotone_amended 1 1 1 1 12 one_pos one_pos one_pos (le_refl 1) (by norm_num)⟩
